import Mathlib

/-!
Verification of the request-validation and dispatch contract of the
cheminformatics algorithm generator service (`app/api/generate/route.ts`).

The route module exports two handlers:
* `POST` parses the request body, validates the `type` field against the
  `algorithmGenerators` lookup object, invokes the selected generator with the
  (possibly absent) `parameters` record, and serializes the result;
* `GET` returns a static informational document.

The embedding below models the parsed JSON request body, JavaScript truthiness
defaulting (`x || d`), the property lookup on the generator object (including
the properties inherited from `Object.prototype`, which a plain-object lookup
in JavaScript also finds), and the six generator functions, each a pure
function from a parameters record to a fixed-shape JSON document.
-/

namespace CroweAlgorithm

/-- JSON values, the domain of request and response bodies.  Numbers are
modelled as rationals (JavaScript numbers; every literal in the source is a
decimal). -/
inductive Json where
  | null : Json
  | bool : Bool → Json
  | num : Rat → Json
  | str : String → Json
  | arr : List Json → Json
  | obj : List (String × Json) → Json

/-- Field access on a JSON object: the value of the first binding of `key`,
`none` on a non-object or a missing key. -/
def Json.getField : Json → String → Option Json
  | Json.obj fields, key => (fields.find? (fun kv => kv.1 == key)).map (fun kv => kv.2)
  | _, _ => none

/-- An HTTP response: a status code and a JSON body (`NextResponse.json`). -/
structure HttpResponse where
  status : Nat
  body : Json

/-- The `parameters` record of a request body (interface `GenerateRequest`):
up to four optional fields; `none` models an absent field (JavaScript
`undefined`). -/
structure Params where
  threshold : Option Rat
  method : Option String
  maxCompounds : Option Rat
  iterations : Option Rat
deriving DecidableEq, Repr

/-- The empty parameters object `{}`: every field absent. -/
def Params.empty : Params := Params.mk none none none none

/-- A parsed request body: the `type` field (a string or absent) and the
`parameters` field (an object or absent).  The JSON parse gives the handler
exactly these two destructured bindings. -/
structure GenerateRequest where
  type : Option String
  parameters : Option Params
deriving DecidableEq, Repr

/-- JavaScript `x || d` for an optional number: an absent field and the falsy
number `0` both yield the default `d`. -/
def jsOrNum (x : Option Rat) (d : Rat) : Rat :=
  match x with
  | none => d
  | some v => if v = 0 then d else v

/-- JavaScript `x || d` for an optional string: an absent field and the falsy
empty string both yield the default `d`. -/
def jsOrStr (x : Option String) (d : String) : String :=
  match x with
  | none => d
  | some s => if s = "" then d else s

/-- Rendering of a number spliced into a template literal.  Every value this
development exercises is an integer, rendered as its decimal digits exactly as
JavaScript does; the non-integer branch is a placeholder rendering. -/
def jsNumToString (q : Rat) : String :=
  if q.den = 1 then toString q.num else toString q

/-- The molecular-similarity pseudocode template up to the `method` splice point. -/
def msPseudoPre : String :=
  "function molecularSimilaritySearch(queryMolecule, database, threshold):\n    // Generate fingerprint for query molecule\n    queryFingerprint = generateFingerprint(queryMolecule, ECFP4, 2048)\n\n    results = []\n\n    // Parallel processing for large databases\n    for compound in database:\n        compoundFingerprint = getFingerprint(compound)\n\n        // Calculate "

/-- The molecular-similarity pseudocode template after the `method` splice point. -/
def msPseudoSuf : String :=
  " similarity\n        similarity = calculateSimilarity(queryFingerprint, compoundFingerprint)\n\n        if similarity >= threshold:\n            results.append(\x7b\n                compound: compound,\n                similarity: similarity,\n                confidence: calculateConfidence(similarity)\n            \x7d)\n\n    // Sort by similarity and return top results\n    results.sort(key=lambda x: x.similarity, reverse=True)\n    return results[0:maxResults]\n\nfunction calculateSimilarity(fp1, fp2):\n    if method == \"tanimoto\":\n        intersection = bitwise_and(fp1, fp2).count()\n        union = bitwise_or(fp1, fp2).count()\n        return intersection / union\n    elif method == \"dice\":\n        intersection = bitwise_and(fp1, fp2).count()\n        return 2 * intersection / (fp1.count() + fp2.count())\n    elif method == \"cosine\":\n        dotProduct = bitwise_and(fp1, fp2).count()\n        return dotProduct / sqrt(fp1.count() * fp2.count())"

/-- The static qsar-model pseudocode template (no parameter is spliced in). -/
def qsarPseudocode : String :=
  "function generateQSARModel(trainingSet, targetProperty):\n    // Calculate molecular descriptors\n    descriptorMatrix = []\n    activityValues = []\n\n    for compound in trainingSet:\n        descriptors = calculateDescriptors(compound)\n        descriptorMatrix.append(descriptors)\n        activityValues.append(compound.activity)\n\n    // Feature selection and normalization\n    selectedFeatures = selectFeatures(descriptorMatrix, activityValues)\n    normalizedData = normalize(selectedFeatures)\n\n    // Train Random Forest model\n    model = RandomForestRegressor(\n        n_estimators=100,\n        max_depth=10,\n        min_samples_split=5\n    )\n\n    // Cross-validation\n    cvScores = []\n    for fold in kFoldSplit(normalizedData, k=5):\n        trainData, testData = fold\n        model.fit(trainData, trainTargets)\n        predictions = model.predict(testData)\n        score = calculateR2(predictions, testTargets)\n        cvScores.append(score)\n\n    // Final model training on full dataset\n    model.fit(normalizedData, activityValues)\n\n    return \x7b\n        model: model,\n        cvScore: mean(cvScores),\n        featureImportance: model.feature_importances_,\n        descriptors: selectedFeatures\n    \x7d\n\nfunction predictActivity(model, newCompound):\n    descriptors = calculateDescriptors(newCompound)\n    normalizedDesc = normalize(descriptors)\n    prediction = model.predict(normalizedDesc)\n    confidence = model.estimateConfidence(normalizedDesc)\n    return prediction, confidence"

/-- The static compound-screening pseudocode template (no parameter is spliced in). -/
def csPseudocode : String :=
  "function virtualScreeningPipeline(compoundLibrary, targetProtein, queryLigand):\n    // Stage 1: Rule-based filtering\n    filtered = []\n    for compound in compoundLibrary:\n        if passesRuleOfFive(compound) and passesPAINSFilter(compound):\n            filtered.append(compound)\n\n    console.log(\"Stage 1: \", filtered.length, \"compounds passed filters\")\n\n    // Stage 2: Ligand-based screening\n    similarCompounds = []\n    queryFP = generateFingerprint(queryLigand)\n\n    for compound in filtered:\n        similarity = tanimotoSimilarity(compound, queryFP)\n        if similarity >= cutoffThreshold:\n            similarCompounds.append(\x7b\n                compound: compound,\n                similarity: similarity\n            \x7d)\n\n    console.log(\"Stage 2: \", similarCompounds.length, \"similar compounds\")\n\n    // Stage 3: Structure-based docking\n    dockingResults = []\n    for entry in similarCompounds.sortBy(\x27similarity\x27).top(1000):\n        dockingScore = performDocking(entry.compound, targetProtein)\n        bindingEnergy = calculateBindingEnergy(entry.compound, targetProtein)\n\n        dockingResults.append(\x7b\n            compound: entry.compound,\n            similarity: entry.similarity,\n            dockingScore: dockingScore,\n            bindingEnergy: bindingEnergy,\n            combinedScore: 0.4*similarity + 0.6*dockingScore\n        \x7d)\n\n    // Final ranking and selection\n    rankedHits = dockingResults.sortBy(\x27combinedScore\x27, desc=True)\n    return rankedHits[0:maxHits]\n\nfunction passesRuleOfFive(compound):\n    mw = compound.molecularWeight\n    logP = compound.logP\n    hbd = compound.hydrogenBondDonors\n    hba = compound.hydrogenBondAcceptors\n\n    return (mw <= 500 and logP <= 5 and hbd <= 5 and hba <= 10)"

/-- The static structure-optimization pseudocode template (no parameter is spliced in). -/
def soPseudocode : String :=
  "function optimizeMolecularStructure(seedMolecule, objectives):\n    // Initialize population with variations of seed\n    population = []\n    for i in range(populationSize):\n        variant = generateVariant(seedMolecule)\n        population.append(variant)\n\n    bestMolecule = null\n    bestScore = -Infinity\n\n    for generation in range(maxGenerations):\n        // Evaluate fitness for each molecule\n        fitnessScores = []\n        for molecule in population:\n            score = evaluateFitness(molecule, objectives)\n            fitnessScores.append(score)\n\n            if score > bestScore:\n                bestScore = score\n                bestMolecule = molecule\n\n        // Selection: Tournament selection\n        parents = tournamentSelection(population, fitnessScores)\n\n        // Crossover: Exchange molecular fragments\n        offspring = []\n        for i in range(0, len(parents), 2):\n            if random() < crossoverRate:\n                child1, child2 = crossover(parents[i], parents[i+1])\n                offspring.extend([child1, child2])\n            else:\n                offspring.extend([parents[i], parents[i+1]])\n\n        // Mutation: Modify functional groups\n        for molecule in offspring:\n            if random() < mutationRate:\n                molecule = mutate(molecule)\n\n        // Replace population with offspring\n        population = offspring\n\n        // Convergence check\n        if generation > 50 and scoreImprovement < 0.001:\n            break\n\n    return \x7b\n        optimizedMolecule: bestMolecule,\n        finalScore: bestScore,\n        properties: calculateProperties(bestMolecule),\n        generations: generation\n    \x7d\n\nfunction evaluateFitness(molecule, objectives):\n    potency = predictPotency(molecule)\n    selectivity = calculateSelectivity(molecule)\n    drugLikeness = qedScore(molecule)\n    synthAccessibility = sascScore(molecule)\n\n    // Multi-objective optimization with weights\n    fitness = 0.4*potency + 0.3*selectivity + 0.2*drugLikeness + 0.1*synthAccessibility\n    return fitness"

/-- The static pharmacophore pseudocode template (no parameter is spliced in). -/
def phPseudocode : String :=
  "function generatePharmacophoreModel(activeCompounds, inactiveCompounds):\n    // Generate conformers for all active compounds\n    conformerSets = []\n    for compound in activeCompounds:\n        conformers = generateConformers(compound, maxConformers=100)\n        conformerSets.append(conformers)\n\n    // Identify common pharmacophoric features\n    commonFeatures = []\n\n    // For each pair of active compounds\n    for i in range(len(conformerSets)):\n        for j in range(i+1, len(conformerSets)):\n            // Find overlapping features\n            matches = findFeatureMatches(\n                conformerSets[i],\n                conformerSets[j],\n                toleranceRadius\n            )\n            commonFeatures.extend(matches)\n\n    // Cluster features and identify most frequent\n    featureClusters = clusterFeatures(commonFeatures, toleranceRadius)\n    rankedFeatures = rankByFrequency(featureClusters)\n\n    // Build pharmacophore model\n    pharmacophore = \x7b\n        features: [],\n        excludedVolumes: []\n    \x7d\n\n    for cluster in rankedFeatures.top(maxFeatures):\n        feature = \x7b\n            type: cluster.featureType,\n            center: cluster.centroid,\n            radius: toleranceRadius,\n            weight: cluster.frequency\n        \x7d\n        pharmacophore.features.append(feature)\n\n    // Add excluded volumes from inactive compounds\n    for compound in inactiveCompounds:\n        clashes = detectClashes(compound, pharmacophore.features)\n        pharmacophore.excludedVolumes.extend(clashes)\n\n    // Validate model\n    sensitivity = testSensitivity(pharmacophore, activeCompounds)\n    specificity = testSpecificity(pharmacophore, inactiveCompounds)\n\n    return \x7b\n        model: pharmacophore,\n        sensitivity: sensitivity,\n        specificity: specificity,\n        features: pharmacophore.features\n    \x7d\n\nfunction screenWithPharmacophore(pharmacophore, compoundDatabase):\n    hits = []\n    for compound in compoundDatabase:\n        conformers = generateConformers(compound, maxConformers=50)\n\n        for conformer in conformers:\n            if matchesPharmacophore(conformer, pharmacophore):\n                fitScore = calculatePharmacophorefit(conformer, pharmacophore)\n                hits.append(\x7b\n                    compound: compound,\n                    conformer: conformer,\n                    fitScore: fitScore\n                \x7d)\n                break  // Found matching conformer\n\n    return hits.sortBy(\x27fitScore\x27, desc=True)"

/-- The virtual-screening pseudocode template up to the `maxCompounds` splice point. -/
def vsPseudoPre : String :=
  "function aiVirtualScreening(compoundLibrary, targetProtein, trainingData):\n    // Train ensemble of ML models\n    models = []\n\n    // 1. Graph Neural Network for molecular graphs\n    graphModel = trainGraphNN(trainingData)\n    models.append(graphModel)\n\n    // 2. Convolutional NN for 2D molecular images\n    cnnModel = trainMolecularCNN(trainingData)\n    models.append(cnnModel)\n\n    // 3. Traditional QSAR model\n    qsarModel = trainQSARModel(trainingData)\n    models.append(qsarModel)\n\n    // Screen library in batches\n    predictions = []\n\n    for batch in batchIterator(compoundLibrary, batchSize):\n        batchPredictions = []\n\n        for compound in batch:\n            // Get predictions from all models\n            graphPred = graphModel.predict(compound.graph)\n            cnnPred = cnnModel.predict(compound.image)\n            qsarPred = qsarModel.predict(compound.descriptors)\n\n            // Ensemble prediction with weighted voting\n            ensemblePred = 0.4*graphPred + 0.3*cnnPred + 0.3*qsarPred\n\n            // Calculate prediction uncertainty\n            uncertainty = std([graphPred, cnnPred, qsarPred])\n            confidence = 1 - uncertainty\n\n            if confidence >= confidenceThreshold:\n                batchPredictions.append(\x7b\n                    compound: compound,\n                    predictedActivity: ensemblePred,\n                    confidence: confidence,\n                    individualPredictions: \x7b\n                        graph: graphPred,\n                        cnn: cnnPred,\n                        qsar: qsarPred\n                    \x7d\n                \x7d)\n\n        predictions.extend(batchPredictions)\n\n    // Optional: Docking refinement for top candidates\n    if useDocking:\n        topCandidates = predictions.sortBy(\x27predictedActivity\x27).top(1000)\n\n        for candidate in topCandidates:\n            dockingScore = performDocking(candidate.compound, targetProtein)\n            candidate.dockingScore = dockingScore\n            candidate.finalScore = 0.7*predictedActivity + 0.3*dockingScore\n\n    // Rank and return final hits\n    finalHits = predictions.sortBy(\x27finalScore\x27, desc=True)\n\n    return \x7b\n        hits: finalHits.top("

/-- The virtual-screening pseudocode template after the `maxCompounds` splice point. -/
def vsPseudoSuf : String :=
  "),\n        modelPerformance: \x7b\n            graphNN: evaluateModel(graphModel),\n            cnn: evaluateModel(cnnModel),\n            qsar: evaluateModel(qsarModel)\n        \x7d,\n        statistics: \x7b\n            totalScreened: len(compoundLibrary),\n            hitsFound: len(finalHits),\n            hitRate: len(finalHits) / len(compoundLibrary)\n        \x7d\n    \x7d"

/-- The six recognized algorithm categories — the `AlgorithmType` union type of
the source. -/
inductive AlgorithmType where
  | molecularSimilarity : AlgorithmType
  | qsarModel : AlgorithmType
  | compoundScreening : AlgorithmType
  | structureOptimization : AlgorithmType
  | pharmacophore : AlgorithmType
  | virtualScreening : AlgorithmType
deriving DecidableEq, Repr

/-- The string identifier of each category, as it keys `algorithmGenerators`. -/
def AlgorithmType.key : AlgorithmType → String
  | AlgorithmType.molecularSimilarity => "molecular-similarity"
  | AlgorithmType.qsarModel => "qsar-model"
  | AlgorithmType.compoundScreening => "compound-screening"
  | AlgorithmType.structureOptimization => "structure-optimization"
  | AlgorithmType.pharmacophore => "pharmacophore"
  | AlgorithmType.virtualScreening => "virtual-screening"

/-- The category named by a string, if any: which own key of
`algorithmGenerators` the string matches. -/
def AlgorithmType.ofKey (s : String) : Option AlgorithmType :=
  if s = "molecular-similarity" then some AlgorithmType.molecularSimilarity
  else if s = "qsar-model" then some AlgorithmType.qsarModel
  else if s = "compound-screening" then some AlgorithmType.compoundScreening
  else if s = "structure-optimization" then some AlgorithmType.structureOptimization
  else if s = "pharmacophore" then some AlgorithmType.pharmacophore
  else if s = "virtual-screening" then some AlgorithmType.virtualScreening
  else none

/-- The generator keyed `molecular-similarity` (route.ts lines 22-76). -/
def molecularSimilarityGenerator (params : Params) : Json :=
  Json.obj [
    ("name", Json.str "Molecular Similarity Search Algorithm"),
    ("type", Json.str "molecular-similarity"),
    ("description", Json.str "Fast molecular similarity search using fingerprint-based comparison methods to identify structurally similar compounds in large chemical databases."),
    ("parameters", Json.obj [
      ("similarityThreshold", Json.num (jsOrNum params.threshold 0.7)),
      ("method", Json.str (jsOrStr params.method "tanimoto")),
      ("maxResults", Json.num (jsOrNum params.maxCompounds 100)),
      ("fingerprintType", Json.str "ECFP4"),
      ("bitLength", Json.num 2048)]),
    ("pseudocode", Json.str (msPseudoPre ++ jsOrStr params.method "Tanimoto" ++ msPseudoSuf)),
    ("complexity", Json.str "O(n) where n is database size"),
    ("useCases", Json.arr [
      Json.str "Lead compound identification in drug discovery",
      Json.str "Virtual screening of chemical libraries",
      Json.str "Finding biosimilar compounds",
      Json.str "Chemical space exploration",
      Json.str "Scaffold hopping for patent avoidance"])]

/-- The generator keyed `qsar-model` (route.ts lines 78-143). -/
def qsarModelGenerator (params : Params) : Json :=
  Json.obj [
    ("name", Json.str "QSAR Model Generation Algorithm"),
    ("type", Json.str "qsar-model"),
    ("description", Json.str "Quantitative Structure-Activity Relationship (QSAR) modeling using machine learning to predict biological activity from molecular descriptors."),
    ("parameters", Json.obj [
      ("modelType", Json.str "Random Forest"),
      ("descriptors", Json.arr [Json.str "MW", Json.str "LogP", Json.str "TPSA",
        Json.str "HBD", Json.str "HBA", Json.str "RotatableBonds"]),
      ("validationMethod", Json.str "k-fold cross-validation"),
      ("kFolds", Json.num 5),
      ("maxIterations", Json.num (jsOrNum params.iterations 1000))]),
    ("pseudocode", Json.str qsarPseudocode),
    ("complexity", Json.str "O(n·m·log(m)) where n=samples, m=features"),
    ("useCases", Json.arr [
      Json.str "Predicting drug bioactivity and toxicity",
      Json.str "Optimizing lead compounds for potency",
      Json.str "ADMET property prediction",
      Json.str "Prioritizing compounds for synthesis",
      Json.str "Understanding structure-activity relationships"])]

/-- The generator keyed `compound-screening` (route.ts lines 145-211).  Note
that the single `maxCompounds` input feeds both `librarySize` (default
1000000) and `maxHits` (default 100). -/
def compoundScreeningGenerator (params : Params) : Json :=
  Json.obj [
    ("name", Json.str "High-Throughput Virtual Screening Algorithm"),
    ("type", Json.str "compound-screening"),
    ("description", Json.str "Efficient multi-stage virtual screening pipeline combining ligand-based and structure-based methods to filter large compound libraries."),
    ("parameters", Json.obj [
      ("librarySize", Json.num (jsOrNum params.maxCompounds 1000000)),
      ("filterStages", Json.arr [Json.str "rule-of-five", Json.str "similarity", Json.str "docking"]),
      ("cutoffThreshold", Json.num (jsOrNum params.threshold 0.7)),
      ("maxHits", Json.num (jsOrNum params.maxCompounds 100))]),
    ("pseudocode", Json.str csPseudocode),
    ("complexity", Json.str "O(n + k·log(k) + m·d) where n=library, k=filtered, m=docked, d=docking time"),
    ("useCases", Json.arr [
      Json.str "Lead discovery from ultra-large libraries",
      Json.str "Repurposing existing drugs for new targets",
      Json.str "Fragment-based drug design",
      Json.str "Identifying allosteric modulators",
      Json.str "Multi-target screening campaigns"])]

/-- The generator keyed `structure-optimization` (route.ts lines 213-293). -/
def structureOptimizationGenerator (params : Params) : Json :=
  Json.obj [
    ("name", Json.str "Molecular Structure Optimization Algorithm"),
    ("type", Json.str "structure-optimization"),
    ("description", Json.str "Iterative optimization of molecular structures using genetic algorithms and energy minimization to improve drug-like properties."),
    ("parameters", Json.obj [
      ("populationSize", Json.num 100),
      ("generations", Json.num (jsOrNum params.iterations 1000)),
      ("mutationRate", Json.num 0.1),
      ("crossoverRate", Json.num 0.7),
      ("objectives", Json.arr [Json.str "potency", Json.str "selectivity", Json.str "drug-likeness"])]),
    ("pseudocode", Json.str soPseudocode),
    ("complexity", Json.str "O(g·p·e) where g=generations, p=population, e=evaluation time"),
    ("useCases", Json.arr [
      Json.str "Lead optimization in medicinal chemistry",
      Json.str "Improving ADMET properties",
      Json.str "Designing selective inhibitors",
      Json.str "Scaffold morphing and bioisostere replacement",
      Json.str "De novo drug design"])]

/-- The generator keyed `pharmacophore` (route.ts lines 295-386).  Its body
never reads a field of `params`; every value in it is a literal. -/
def pharmacophoreGenerator (_params : Params) : Json :=
  Json.obj [
    ("name", Json.str "Pharmacophore Mapping Algorithm"),
    ("type", Json.str "pharmacophore"),
    ("description", Json.str "Identification and mapping of essential molecular features required for biological activity using 3D pharmacophore models."),
    ("parameters", Json.obj [
      ("featureTypes", Json.arr [Json.str "HBD", Json.str "HBA", Json.str "Aromatic",
        Json.str "Hydrophobic", Json.str "Charged"]),
      ("toleranceRadius", Json.num 1.0),
      ("minFeatures", Json.num 3),
      ("maxFeatures", Json.num 7),
      ("conformerGeneration", Json.bool true)]),
    ("pseudocode", Json.str phPseudocode),
    ("complexity", Json.str "O(n²·c²·f) where n=compounds, c=conformers, f=features"),
    ("useCases", Json.arr [
      Json.str "Identifying binding mode requirements",
      Json.str "Virtual screening with limited structural data",
      Json.str "Lead hopping to novel scaffolds",
      Json.str "Understanding SAR in congeneric series",
      Json.str "Multi-target pharmacophore design"])]

/-- The generator keyed `virtual-screening` (route.ts lines 388-481).  Its
pseudocode template splices the defaulted `maxCompounds` value into the text. -/
def virtualScreeningGenerator (params : Params) : Json :=
  Json.obj [
    ("name", Json.str "AI-Powered Virtual Screening Algorithm"),
    ("type", Json.str "virtual-screening"),
    ("description", Json.str "Advanced virtual screening using deep learning and ensemble methods to predict compound activity and prioritize candidates."),
    ("parameters", Json.obj [
      ("modelEnsemble", Json.arr [Json.str "CNN", Json.str "GraphNN", Json.str "QSAR"]),
      ("confidenceThreshold", Json.num (jsOrNum params.threshold 0.75)),
      ("batchSize", Json.num 1000),
      ("useDocking", Json.bool true),
      ("useMLModels", Json.bool true)]),
    ("pseudocode", Json.str (vsPseudoPre ++ jsNumToString (jsOrNum params.maxCompounds 100) ++ vsPseudoSuf)),
    ("complexity", Json.str "O(n·m + k·d) where n=library, m=models, k=hits, d=docking"),
    ("useCases", Json.arr [
      Json.str "Large-scale drug discovery campaigns",
      Json.str "Identifying novel chemical matter",
      Json.str "Predicting off-target effects",
      Json.str "Polypharmacology screening",
      Json.str "COVID-19 drug repurposing initiatives"])]

/-- The dispatch table `algorithmGenerators`: each category key mapped to its
generator function. -/
def algorithmGenerators : AlgorithmType → Params → Json
  | AlgorithmType.molecularSimilarity => molecularSimilarityGenerator
  | AlgorithmType.qsarModel => qsarModelGenerator
  | AlgorithmType.compoundScreening => compoundScreeningGenerator
  | AlgorithmType.structureOptimization => structureOptimizationGenerator
  | AlgorithmType.pharmacophore => pharmacophoreGenerator
  | AlgorithmType.virtualScreening => virtualScreeningGenerator

/-- Whether a category's generator body dereferences its `params` argument.
Five of the six read `params.threshold`, `params.method`, `params.maxCompounds`
or `params.iterations` while building their result; the `pharmacophore`
generator reads no field of `params` at all.  A JavaScript property read on
`undefined` throws a `TypeError`, so this flag decides whether a call with an
absent `parameters` field throws. -/
def generatorDereferencesParams : AlgorithmType → Bool
  | AlgorithmType.pharmacophore => false
  | _ => true

/-- `algorithmGenerators[type](parameters)` for a recognized category:
`Except.error` models the `TypeError` thrown when a generator that reads a
field of `params` is applied to an absent (`undefined`) parameters record. -/
def runGenerator (t : AlgorithmType) (params : Option Params) : Except Unit Json :=
  match params with
  | some p => Except.ok (algorithmGenerators t p)
  | none =>
    if generatorDereferencesParams t then Except.error ()
    else Except.ok (algorithmGenerators t Params.empty)

/-- The value found by the property lookup `algorithmGenerators[type]`.
`algorithmGenerators` is a plain JavaScript object literal, so the lookup
falls back to `Object.prototype` when the string is not one of the six own
keys: the inherited methods (`toString`, `hasOwnProperty`, ...) and the
`__proto__` accessor (which yields `Object.prototype` itself, a non-callable
object) are all found and are all truthy. -/
inductive PropValue where
  | generator : AlgorithmType → PropValue
  | protoMethod : String → PropValue
  | protoObject : PropValue
  | undef : PropValue
deriving DecidableEq, Repr

/-- The function-valued properties inherited from `Object.prototype`. -/
def objectPrototypeMethodNames : List String :=
  ["constructor", "hasOwnProperty", "isPrototypeOf", "propertyIsEnumerable",
   "toLocaleString", "toString", "valueOf",
   "__defineGetter__", "__defineSetter__", "__lookupGetter__", "__lookupSetter__"]

/-- `algorithmGenerators[key]`: the six own keys yield generators; otherwise
the lookup continues along the prototype chain into `Object.prototype`. -/
def algorithmGeneratorsProp (key : String) : PropValue :=
  match AlgorithmType.ofKey key with
  | some t => PropValue.generator t
  | none =>
    if key = "__proto__" then PropValue.protoObject
    else if objectPrototypeMethodNames.contains key then PropValue.protoMethod key
    else PropValue.undef

/-- JSON serialization of a request's parameters record, field order fixed to
the interface order; used only on the unexercised `constructor` branch below
(extra client-sent fields and client field order are not modelled). -/
def serializeParams (p : Params) : Json :=
  Json.obj (
    (p.threshold.map (fun v => ("threshold", Json.num v))).toList ++
    (p.method.map (fun v => ("method", Json.str v))).toList ++
    (p.maxCompounds.map (fun v => ("maxCompounds", Json.num v))).toList ++
    (p.iterations.map (fun v => ("iterations", Json.num v))).toList)

/-- The result of `algorithmGenerators[key](parameters)` when `key` names a
method inherited from `Object.prototype`, per JavaScript semantics:
`toString`/`toLocaleString` on a plain object return the string
`[object Object]`; `valueOf` returns the generators object itself, whose
function-valued fields JSON serialization drops, leaving `{}`;
`constructor` is `Object`, which returns `{}` on `undefined` and the argument
itself on an object; `hasOwnProperty`/`isPrototypeOf`/`propertyIsEnumerable`
return `false` for the stringified argument; the `__defineGetter__` and
`__defineSetter__` calls throw (their second argument is not callable), and
the `__lookupGetter__`/`__lookupSetter__` calls return `undefined`, which the
JSON response serializer rejects — both modelled as thrown errors. -/
def invokeProtoMethod (key : String) (params : Option Params) : Except Unit Json :=
  if key = "toString" ∨ key = "toLocaleString" then Except.ok (Json.str "[object Object]")
  else if key = "valueOf" then Except.ok (Json.obj [])
  else if key = "constructor" then
    Except.ok (match params with
      | none => Json.obj []
      | some p => serializeParams p)
  else if key = "hasOwnProperty" ∨ key = "isPrototypeOf" ∨ key = "propertyIsEnumerable" then
    Except.ok (Json.bool false)
  else Except.error ()

/-- The 400 response `NextResponse.json({ error: 'Invalid algorithm type' },
{ status: 400 })`. -/
def invalidTypeResponse : HttpResponse :=
  HttpResponse.mk 400 (Json.obj [("error", Json.str "Invalid algorithm type")])

/-- The 500 response `NextResponse.json({ error: 'Failed to generate
algorithm' }, { status: 500 })` produced by the catch-all. -/
def generationFailureResponse : HttpResponse :=
  HttpResponse.mk 500 (Json.obj [("error", Json.str "Failed to generate algorithm")])

/-- The `POST` handler.  The argument is the outcome of `request.json()`:
`none` when parsing throws (no body, or malformed JSON), in which case the
catch-all answers 500; otherwise the parsed body.  A missing or empty `type`
is falsy, and a lookup miss is `undefined` (falsy), so both answer 400; a
found value is invoked, a throw during the call is caught as 500, and a
returned value is serialized with status 200. -/
def POST (request : Option GenerateRequest) : HttpResponse :=
  match request with
  | none => generationFailureResponse
  | some body =>
    match body.type with
    | none => invalidTypeResponse
    | some t =>
      if t = "" then invalidTypeResponse
      else
        match algorithmGeneratorsProp t with
        | PropValue.undef => invalidTypeResponse
        | PropValue.generator g =>
          match runGenerator g body.parameters with
          | Except.ok algorithm => HttpResponse.mk 200 algorithm
          | Except.error _ => generationFailureResponse
        | PropValue.protoMethod k =>
          match invokeProtoMethod k body.parameters with
          | Except.ok j => HttpResponse.mk 200 j
          | Except.error _ => generationFailureResponse
        | PropValue.protoObject => generationFailureResponse

/-- `Object.keys(algorithmGenerators)`: the six own keys in the insertion
order of the object literal. -/
def algorithmGeneratorKeys : List String :=
  ["molecular-similarity", "qsar-model", "compound-screening",
   "structure-optimization", "pharmacophore", "virtual-screening"]

/-- The `GET` handler: a static informational document.  The source function
takes no argument at all, so the response cannot depend on any input. -/
def GET : HttpResponse :=
  HttpResponse.mk 200 (Json.obj [
    ("message", Json.str "Cheminformatics Algorithm Generator API"),
    ("version", Json.str "1.0.0"),
    ("availableAlgorithms", Json.arr (algorithmGeneratorKeys.map Json.str)),
    ("usage", Json.str "POST /api/generate with \x7b type, parameters \x7d")])

/-- The named field of the `parameters` record of a response body. -/
def responseParam (r : HttpResponse) (key : String) : Option Json :=
  (r.body.getField "parameters").bind (fun p => p.getField key)

/-- The `parameters` record each generator emits when every optional input
field is absent — the category-specific defaults, written out value by value
(route.ts lines 26-32, 82-88, 149-154, 217-223, 299-305, 392-398, with every
`||` falling through to its right-hand side). -/
def defaultParametersRecord : AlgorithmType → Json
  | AlgorithmType.molecularSimilarity => Json.obj [
      ("similarityThreshold", Json.num 0.7),
      ("method", Json.str "tanimoto"),
      ("maxResults", Json.num 100),
      ("fingerprintType", Json.str "ECFP4"),
      ("bitLength", Json.num 2048)]
  | AlgorithmType.qsarModel => Json.obj [
      ("modelType", Json.str "Random Forest"),
      ("descriptors", Json.arr [Json.str "MW", Json.str "LogP", Json.str "TPSA",
        Json.str "HBD", Json.str "HBA", Json.str "RotatableBonds"]),
      ("validationMethod", Json.str "k-fold cross-validation"),
      ("kFolds", Json.num 5),
      ("maxIterations", Json.num 1000)]
  | AlgorithmType.compoundScreening => Json.obj [
      ("librarySize", Json.num 1000000),
      ("filterStages", Json.arr [Json.str "rule-of-five", Json.str "similarity", Json.str "docking"]),
      ("cutoffThreshold", Json.num 0.7),
      ("maxHits", Json.num 100)]
  | AlgorithmType.structureOptimization => Json.obj [
      ("populationSize", Json.num 100),
      ("generations", Json.num 1000),
      ("mutationRate", Json.num 0.1),
      ("crossoverRate", Json.num 0.7),
      ("objectives", Json.arr [Json.str "potency", Json.str "selectivity", Json.str "drug-likeness"])]
  | AlgorithmType.pharmacophore => Json.obj [
      ("featureTypes", Json.arr [Json.str "HBD", Json.str "HBA", Json.str "Aromatic",
        Json.str "Hydrophobic", Json.str "Charged"]),
      ("toleranceRadius", Json.num 1.0),
      ("minFeatures", Json.num 3),
      ("maxFeatures", Json.num 7),
      ("conformerGeneration", Json.bool true)]
  | AlgorithmType.virtualScreening => Json.obj [
      ("modelEnsemble", Json.arr [Json.str "CNN", Json.str "GraphNN", Json.str "QSAR"]),
      ("confidenceThreshold", Json.num 0.75),
      ("batchSize", Json.num 1000),
      ("useDocking", Json.bool true),
      ("useMLModels", Json.bool true)]

/-- `jsOrNum` on a supplied non-falsy number keeps the supplied value. -/
theorem jsOrNum_some_of_ne (v d : Rat) (hv : v ≠ 0) : jsOrNum (some v) d = v := by
  simp [jsOrNum, hv]

/-- Sanity check of the handler: an unrecognized category string, a missing
`type` field and an empty `type` string all answer 400. -/
theorem post_unknown_type_is_400 :
    POST (some (GenerateRequest.mk (some "not-a-category") (some Params.empty))) =
      invalidTypeResponse ∧
    POST (some (GenerateRequest.mk none (some Params.empty))) = invalidTypeResponse ∧
    POST (some (GenerateRequest.mk (some "") (some Params.empty))) = invalidTypeResponse :=
  ⟨rfl, rfl, rfl⟩

/-- Sanity check of the prototype-chain model: `__proto__` also passes the
truthiness validation, but the found value is not callable, so the call throws
and the catch-all answers 500. -/
theorem post_proto_key_is_500 :
    POST (some (GenerateRequest.mk (some "__proto__") (some Params.empty))) =
      generationFailureResponse := rfl

/-- Sanity check of the absent-parameters model: the pharmacophore generator
never reads `params`, so it alone survives an absent parameters record, while
a category whose generator reads a field throws. -/
theorem post_absent_params_split :
    (POST (some (GenerateRequest.mk (some "pharmacophore") none))).status = 200 ∧
    (POST (some (GenerateRequest.mk (some "qsar-model") none))).status = 500 :=
  ⟨rfl, rfl⟩

/-- C1, counterexample: a POST body with a valid type and NO `parameters`
field does not get HTTP 200 — the generator dereferences the `undefined`
parameters record, throws, and the catch-all answers 500. -/
theorem c1_counterexample :
    POST (some (GenerateRequest.mk (some "molecular-similarity") none)) =
      generationFailureResponse ∧
    (POST (some (GenerateRequest.mk (some "molecular-similarity") none))).status ≠ 200 :=
  ⟨rfl, by decide⟩

/-- C1, amended: for every one of the six valid category identifiers, a POST
request whose body has that type and an EMPTY parameters object returns HTTP
200 with a document whose `type` field equals the requested category and whose
`parameters` record holds exactly the category defaults (for
molecular-similarity: similarityThreshold 0.7, method "tanimoto",
maxResults 100, fingerprintType "ECFP4", bitLength 2048). -/
theorem c1_amended (t : AlgorithmType) :
    (POST (some (GenerateRequest.mk (some t.key) (some Params.empty)))).status = 200 ∧
    (POST (some (GenerateRequest.mk (some t.key) (some Params.empty)))).body.getField "type" =
      some (Json.str t.key) ∧
    (POST (some (GenerateRequest.mk (some t.key) (some Params.empty)))).body.getField "parameters" =
      some (defaultParametersRecord t) := by
  cases t <;> exact ⟨rfl, rfl, rfl⟩

/-- C2, counterexample: a POST request with no body at all is NOT handled like
an unrecognized category — `request.json()` throws before validation, the
catch-all reports the server error, and the response is 500, not 400. -/
theorem c2_counterexample :
    (POST none).status = 500 ∧
    (POST none).body.getField "error" = some (Json.str "Failed to generate algorithm") ∧
    (POST none).status ≠ 400 :=
  ⟨rfl, rfl, by decide⟩

/-- C2, amended: a POST request carrying no body fails with the server error
response, HTTP 500 and body with error "Failed to generate algorithm"; no
generator is invoked. -/
theorem c2_amended : POST none = generationFailureResponse := rfl

/-- C3, code bug: the type value "toString" is none of the six recognized
identifiers, yet the plain-object lookup finds the truthy
`Object.prototype.toString` on the prototype chain, validation passes, the
inherited method is invoked, and the handler answers HTTP 200 with the JSON
string "[object Object]" instead of the claimed 400. -/
theorem c3_code_bug :
    POST (some (GenerateRequest.mk (some "toString") (some Params.empty))) =
      HttpResponse.mk 200 (Json.str "[object Object]") ∧
    (POST (some (GenerateRequest.mk (some "toString") (some Params.empty)))).status ≠ 400 :=
  ⟨rfl, by decide⟩

/-- C4: every generator invoked with an empty parameters record fills each
missing field with its category-specific default (threshold 0.7 for
molecular-similarity and compound-screening, method "tanimoto",
maxCompounds-derived fields 100 or 1000000 depending on category, iterations
1000 for qsar-model and structure-optimization) and produces its fixed-shape
result, whose `type` field names the category. -/
theorem c4_empty_params_defaults (t : AlgorithmType) :
    (algorithmGenerators t Params.empty).getField "parameters" =
      some (defaultParametersRecord t) ∧
    (algorithmGenerators t Params.empty).getField "type" = some (Json.str t.key) := by
  cases t <;> exact ⟨rfl, rfl⟩

/-- C5: a molecular-similarity request supplying threshold 0.9 answers with
similarityThreshold 0.9 while every other parameters field keeps its default
(method "tanimoto", maxResults 100, fingerprintType "ECFP4", bitLength
2048). -/
theorem c5_threshold_override :
    (POST (some (GenerateRequest.mk (some "molecular-similarity")
        (some (Params.mk (some 0.9) none none none))))).status = 200 ∧
    (POST (some (GenerateRequest.mk (some "molecular-similarity")
        (some (Params.mk (some 0.9) none none none))))).body.getField "parameters" =
      some (Json.obj [
        ("similarityThreshold", Json.num 0.9),
        ("method", Json.str "tanimoto"),
        ("maxResults", Json.num 100),
        ("fingerprintType", Json.str "ECFP4"),
        ("bitLength", Json.num 2048)]) := by
  refine ⟨rfl, ?_⟩
  show some (Json.obj [
      ("similarityThreshold", Json.num (jsOrNum (some 0.9) 0.7)),
      ("method", Json.str (jsOrStr none "tanimoto")),
      ("maxResults", Json.num (jsOrNum none 100)),
      ("fingerprintType", Json.str "ECFP4"),
      ("bitLength", Json.num 2048)]) = _
  norm_num [jsOrNum, jsOrStr]

/-- C6: a molecular-similarity request supplying method "dice" answers with a
pseudocode string that is exactly the template text with "dice" spliced in at
the method interpolation point: the template prefix up to the splice (whose
text ends in the interpolation context "// Calculate "), then the supplied
"dice", then the template suffix after the splice (" similarity..."). -/
theorem c6_method_interpolated :
    (POST (some (GenerateRequest.mk (some "molecular-similarity")
        (some (Params.mk none (some "dice") none none))))).body.getField "pseudocode" =
      some (Json.str (msPseudoPre ++ "dice" ++ msPseudoSuf)) :=
  rfl

/-- C7: the GET handler (which takes no input at all) returns HTTP 200 with
`availableAlgorithms` listing exactly the six category identifiers, alongside
the `message`, `version` and `usage` fields. -/
theorem c7_get_lists_algorithms :
    GET.status = 200 ∧
    GET.body.getField "availableAlgorithms" =
      some (Json.arr [Json.str "molecular-similarity", Json.str "qsar-model",
        Json.str "compound-screening", Json.str "structure-optimization",
        Json.str "pharmacophore", Json.str "virtual-screening"]) ∧
    GET.body.getField "message" = some (Json.str "Cheminformatics Algorithm Generator API") ∧
    GET.body.getField "version" = some (Json.str "1.0.0") ∧
    GET.body.getField "usage" =
      some (Json.str "POST /api/generate with \x7b type, parameters \x7d") :=
  ⟨rfl, rfl, rfl, rfl, rfl⟩

/-- C8: the POST handler is a pure function of the parsed request alone — no
randomness, timestamp, or cross-request state enters the embedding — so two
invocations on identical input produce identical responses. -/
theorem c8_deterministic (r₁ r₂ : Option GenerateRequest) (h : r₁ = r₂) :
    POST r₁ = POST r₂ := by
  rw [h]

/-- C8 witness: the determinism theorem applied at a concrete request. -/
theorem c8_deterministic_witness :
    POST (some (GenerateRequest.mk (some "molecular-similarity") (some Params.empty))) =
      POST (some (GenerateRequest.mk (some "molecular-similarity") (some Params.empty))) :=
  c8_deterministic
    (some (GenerateRequest.mk (some "molecular-similarity") (some Params.empty)))
    (some (GenerateRequest.mk (some "molecular-similarity") (some Params.empty))) rfl

/-- C9: a supplied falsy parameter value (threshold 0, method "",
maxCompounds 0, iterations 0) is treated by every generator exactly like an
absent field — the whole output coincides with the all-absent output — and in
particular molecular-similarity with threshold 0 answers similarityThreshold
0.7, not 0. -/
theorem c9_falsy_defaulted :
    (∀ t : AlgorithmType,
      algorithmGenerators t (Params.mk (some 0) (some "") (some 0) (some 0)) =
        algorithmGenerators t Params.empty) ∧
    responseParam (POST (some (GenerateRequest.mk (some "molecular-similarity")
        (some (Params.mk (some 0) none none none))))) "similarityThreshold" =
      some (Json.num 0.7) :=
  ⟨fun t => by cases t <;> rfl, rfl⟩

/-- C10: for compound-screening, one supplied non-zero maxCompounds value v is
written into both `librarySize` and `maxHits`, while with maxCompounds absent
the two fields take the distinct defaults 1000000 and 100. -/
theorem c10_maxCompounds_two_fields (v : Rat) (hv : v ≠ 0) :
    responseParam (POST (some (GenerateRequest.mk (some "compound-screening")
        (some (Params.mk none none (some v) none))))) "librarySize" = some (Json.num v) ∧
    responseParam (POST (some (GenerateRequest.mk (some "compound-screening")
        (some (Params.mk none none (some v) none))))) "maxHits" = some (Json.num v) ∧
    responseParam (POST (some (GenerateRequest.mk (some "compound-screening")
        (some Params.empty)))) "librarySize" = some (Json.num 1000000) ∧
    responseParam (POST (some (GenerateRequest.mk (some "compound-screening")
        (some Params.empty)))) "maxHits" = some (Json.num 100) := by
  refine ⟨?_, ?_, rfl, rfl⟩
  · show some (Json.num (jsOrNum (some v) 1000000)) = some (Json.num v)
    rw [jsOrNum_some_of_ne v 1000000 hv]
  · show some (Json.num (jsOrNum (some v) 100)) = some (Json.num v)
    rw [jsOrNum_some_of_ne v 100 hv]

/-- C10 witness: the two-field write-through at the concrete value 5000. -/
theorem c10_maxCompounds_two_fields_witness :
    responseParam (POST (some (GenerateRequest.mk (some "compound-screening")
        (some (Params.mk none none (some 5000) none))))) "librarySize" =
      some (Json.num 5000) ∧
    responseParam (POST (some (GenerateRequest.mk (some "compound-screening")
        (some (Params.mk none none (some 5000) none))))) "maxHits" = some (Json.num 5000) ∧
    responseParam (POST (some (GenerateRequest.mk (some "compound-screening")
        (some Params.empty)))) "librarySize" = some (Json.num 1000000) ∧
    responseParam (POST (some (GenerateRequest.mk (some "compound-screening")
        (some Params.empty)))) "maxHits" = some (Json.num 100) :=
  c10_maxCompounds_two_fields 5000 (by norm_num)

end CroweAlgorithm
